import Mathlib

/-!
Shallow embedding of the MoneyScope forex-analysis pipeline (`src/app.py`).

External effects are passed in explicitly: every HTTP call is represented by
an `HttpOutcome` value (the status code and parsed JSON body the call produced,
or the transport exception it raised), every language-model call by an
`LLMOutcome`, and the pseudorandom source of the trend sampler by a
`Randomness` record of draws.  A Python function that can raise an uncaught
exception is embedded as a function into `Option` (`none` = the call raised);
a `try`/`except` body is embedded through `Except`.
-/

namespace MoneyScope

/-- Models Python `s.split(sep)` for a one-character separator `c`, on the
character list of the string: splitting on every occurrence of `c`, keeping
empty components, so that the result always has one more component than there
are occurrences of `c`. -/
def splitChar (c : Char) : List Char → List (List Char)
  | [] => [[]]
  | a :: rest =>
    let r := splitChar c rest
    if a = c then [] :: r
    else
      match r with
      | [] => [[a]]
      | h :: t => (a :: h) :: t

/-- Python `s.split(c)` for a single-character separator. -/
def pysplit (s : String) (c : Char) : List String :=
  (splitChar c s.data).map String.mk

/-- Python `c in s` for a one-character pattern: substring containment of a
single character is character membership. -/
def pycontains (s : String) (c : Char) : Bool :=
  s.data.any (fun a => a = c)

/-- The unpacking `base, target = s.split('/')`: yields the two components
when the split has exactly two, otherwise the statement raises `ValueError`
(`none`). -/
def split2 (s : String) : Option (String × String) :=
  match pysplit s '/' with
  | [a, b] => some (a, b)
  | _ => none

/-- What a `requests.get` call produced: a response with its status code and
parsed JSON body, or a transport exception with its message. -/
inductive HttpOutcome (β : Type) where
  | response (status_code : ℕ) (body : β)
  | exn (e : String)
deriving DecidableEq

/-- An outcome that is not a 200 response: a non-200 status code or a raised
transport exception. -/
def HttpOutcome.isFailure {β : Type} : HttpOutcome β → Bool
  | .response code _ => code != 200
  | .exn _ => true

/-- The JSON body fields of the exchange-rate API that `get_exchange_rate`
reads; a `none` field is a key missing from the response object (reading it
raises `KeyError`). -/
structure RateApiBody where
  conversion_rate : Option ℚ
  time_last_update_utc : Option String
  time_next_update_utc : Option String
deriving DecidableEq

/-- The dict `get_exchange_rate` returns: the success dict carries the pair,
rate and timestamps with `status = "success"`; the error dict carries
`status = "error"` and a message.  A `none` field is a key absent from the
dict. -/
structure RateRecord where
  base_currency : Option String := none
  target_currency : Option String := none
  rate : Option ℚ := none
  last_updated : Option String := none
  next_update : Option String := none
  status : String
  message : Option String := none
deriving DecidableEq

/-- The `try` block of `get_exchange_rate` (app.py lines 29-41): `.error` is a
raised exception caught by the `except` clause, carrying `str(e)`; dict
lookups `data["k"]` raise `KeyError("'k'")` on a missing key, in the order the
dict literal evaluates them. -/
def rateTry (base_currency target_currency : String)
    (out : HttpOutcome RateApiBody) : Except String RateRecord :=
  match out with
  | .exn e => .error e
  | .response code body =>
    if code = 200 then
      match body.conversion_rate with
      | none => .error "'conversion_rate'"
      | some r =>
        match body.time_last_update_utc with
        | none => .error "'time_last_update_utc'"
        | some lu =>
          match body.time_next_update_utc with
          | none => .error "'time_next_update_utc'"
          | some nu =>
            .ok { base_currency := some base_currency,
                  target_currency := some target_currency,
                  rate := some r,
                  last_updated := some lu,
                  next_update := some nu,
                  status := "success" }
    else
      .ok { status := "error",
            message := some ("API returned status code " ++ toString code) }

/-- `get_exchange_rate` (app.py lines 24-43): total, because every branch of
the body is inside `try`/`except Exception`. -/
def get_exchange_rate (base_currency target_currency : String)
    (out : HttpOutcome RateApiBody) : RateRecord :=
  match rateTry base_currency target_currency out with
  | .ok r => r
  | .error e => { status := "error", message := some e }

/-- A raw article object of the news API body: the fields read via
`article.get(...)`, which never raises (`none` = key absent, read as JSON
null). -/
structure Article where
  title : Option String := none
  source_name : Option String := none
  publishedAt : Option String := none
  url : Option String := none
  description : Option String := none
deriving DecidableEq

/-- One entry of the list `get_forex_news` builds. -/
structure NewsEntry where
  title : Option String
  source : Option String
  published_at : Option String
  url : Option String
  description : Option String
deriving DecidableEq

/-- The dict comprehension body of app.py lines 65-71. -/
def newsEntryOfArticle (a : Article) : NewsEntry :=
  { title := a.title, source := a.source_name, published_at := a.publishedAt,
    url := a.url, description := a.description }

/-- The news API JSON body: `data.get("articles", [])` defaults a missing
`articles` key to the empty list. -/
structure NewsApiBody where
  articles : Option (List Article)
deriving DecidableEq

/-- The dict `{"status": "error", "message": ...}`. -/
structure ErrorRecord where
  status : String
  message : String
deriving DecidableEq

/-- What `get_forex_news` returns on the two paths out of its `try` block: a
list of entries (200 response) or the error dict. -/
inductive NewsResult where
  | list (entries : List NewsEntry)
  | record (r : ErrorRecord)
deriving DecidableEq

/-- The request parameters `get_forex_news` builds (app.py lines 52-58). -/
structure NewsParams where
  q : String
  sortBy : String
  language : String
  pageSize : ℕ
  apiKey : String
deriving DecidableEq

/-- app.py lines 50-58: the query and parameter dict of the news request. -/
def newsParams (base target api_key : String) : NewsParams :=
  { q := "forex " ++ base ++ " " ++ target ++ " exchange rate",
    sortBy := "publishedAt",
    language := "en",
    pageSize := 3,
    apiKey := api_key }

/-- `get_forex_news` (app.py lines 45-76).  The unpacking of
`currency_pair.split('/')` stands before the `try` block, so its
`ValueError` propagates (`none`); inside the `try` every branch returns.
The 200 branch maps the comprehension over every article of the body: no
local truncation or reordering of the list. -/
def get_forex_news (currency_pair api_key : String)
    (out : HttpOutcome NewsApiBody) : Option NewsResult :=
  match split2 currency_pair with
  | none => none
  | some (base, target) =>
    let _ps := newsParams base target api_key
    some (match out with
      | .exn e => .record { status := "error", message := e }
      | .response code body =>
        if code = 200 then
          .list ((body.articles.getD []).map newsEntryOfArticle)
        else
          .record { status := "error",
                    message := "API returned status code " ++ toString code })

/-- `random.choice(l)`: an element of `l` picked by the draw `i`. -/
def pychoice {α : Type} (l : List α) (i : ℕ) : Option α :=
  l.get? (i % l.length)

/-- `random.randint(a, b)`: an integer in `[a, b]` picked by the draw `i`
(for `a ≤ b`). -/
def pyrandint (a b i : ℕ) : ℕ :=
  a + i % (b + 1 - a)

/-- `random.uniform(a, b) = a + (b-a) * random.random()`, where the draw `u`
models the `random.random()` value in `[0, 1)`. -/
def pyuniform (a b u : ℚ) : ℚ :=
  a + (b - a) * u

/-- Python `round(x)` on a scalar: round half to even. -/
def roundHalfEven (x : ℚ) : ℤ :=
  if x - ⌊x⌋ < 1/2 then ⌊x⌋
  else if 1/2 < x - ⌊x⌋ then ⌊x⌋ + 1
  else if ⌊x⌋ % 2 = 0 then ⌊x⌋ else ⌊x⌋ + 1

/-- Python `round(x, 2)`: round to 2 decimal places, half to even. -/
def pyround2 (x : ℚ) : ℚ :=
  (roundHalfEven (x * 100) : ℚ) / 100

/-- The draws `analyze_forex_trends` takes from the `random` module, in call
order: two `random.choice` draws, two `random.randint` draws, one
`random.uniform` draw. -/
structure Randomness where
  trendIdx : ℕ
  strengthIdx : ℕ
  sentimentIdx : ℕ
  u : ℚ
  volumeIdx : ℕ

/-- The dict `analyze_forex_trends` returns (app.py lines 85-93). -/
structure TrendRecord where
  base_currency : String
  target_currency : String
  current_trend : String
  trend_strength : ℕ
  public_sentiment : String
  volatility : ℚ
  trading_volume : String
deriving DecidableEq

/-- `analyze_forex_trends` (app.py lines 78-93): the unpacking of
`currency_pair.split('/')` raises on a pair without exactly two components
(`none`); `random.choice` on the concrete three-element lists always
succeeds. -/
def analyze_forex_trends (currency_pair : String) (g : Randomness) :
    Option TrendRecord :=
  match split2 currency_pair with
  | none => none
  | some (base, target) =>
    let trend_directions : List String := ["upward", "downward", "sideways"]
    let sentiment_options : List String := ["bullish", "bearish", "neutral"]
    match pychoice trend_directions g.trendIdx,
          pychoice sentiment_options g.sentimentIdx with
    | some trend, some sentiment =>
      some { base_currency := base,
             target_currency := target,
             current_trend := trend,
             trend_strength := pyrandint 3 8 g.strengthIdx,
             public_sentiment := sentiment,
             volatility := pyround2 (pyuniform (0.1 : ℚ) (5.0 : ℚ) g.u),
             trading_volume := toString (pyrandint 50 500 g.volumeIdx) ++ "M" }
    | _, _ => none

/-- What a `client.chat.completions.create` call produced: the completion
text, or a raised transport/API exception. -/
inductive LLMOutcome where
  | completion (text : String)
  | exn (e : String)
deriving DecidableEq

/-- Whether the model call raised. -/
def LLMOutcome.isExn : LLMOutcome → Bool
  | .completion _ => false
  | .exn _ => true

/-- The external world of one pipeline run: the outcome of the rate call, of
the news call, the random draws of the trend sampler, and the outcomes of the
two model calls, plus the news API key read from the environment. -/
structure Oracle where
  rateOut : HttpOutcome RateApiBody
  newsOut : HttpOutcome NewsApiBody
  news_api_key : String
  rand : Randomness
  analysisOut : LLMOutcome
  reportOut : LLMOutcome

/-- `ForexAnalysisState` (app.py lines 96-102): the `TypedDict` threaded
through the graph.  At runtime the dict is partially populated, so every
field is an `Option`; `none` is a key not yet written (reading it raises
`KeyError`). -/
structure ForexAnalysisState where
  currency_pair : Option String
  exchange_rate_data : Option RateRecord
  news_data : Option NewsResult
  trend_data : Option TrendRecord
  data_analysis : Option String
  final_report : Option String
deriving DecidableEq

/-- `collect_exchange_rate` (app.py lines 105-109): reads
`state["currency_pair"]` (`KeyError` when absent), unpacks its split
(`ValueError` when not exactly two components), and returns the value of the
single-key delta dict `{"exchange_rate_data": ...}`. -/
def collect_exchange_rate (state : ForexAnalysisState)
    (out : HttpOutcome RateApiBody) : Option RateRecord :=
  match state.currency_pair with
  | none => none
  | some cp =>
    match split2 cp with
    | none => none
    | some (b, t) => some (get_exchange_rate b t out)

/-- `collect_news` (app.py lines 111-114): delta `{"news_data": ...}`. -/
def collect_news (state : ForexAnalysisState) (api_key : String)
    (out : HttpOutcome NewsApiBody) : Option NewsResult :=
  match state.currency_pair with
  | none => none
  | some cp => get_forex_news cp api_key out

/-- `collect_trends` (app.py lines 116-119): delta `{"trend_data": ...}`. -/
def collect_trends (state : ForexAnalysisState) (g : Randomness) :
    Option TrendRecord :=
  match state.currency_pair with
  | none => none
  | some cp => analyze_forex_trends cp g

/-- `analyze_data` (app.py lines 121-162): the prompt f-string reads
`currency_pair`, `exchange_rate_data`, `news_data` and `trend_data` from the
state (`KeyError` on a missing one), then the model call either returns the
completion, taken verbatim as the delta `{"data_analysis": ...}`, or raises —
there is no `try` around it, so the exception propagates (`none`). -/
def analyze_data (state : ForexAnalysisState) (out : LLMOutcome) :
    Option String :=
  match state.currency_pair, state.exchange_rate_data, state.news_data,
        state.trend_data with
  | some _, some _, some _, some _ =>
    match out with
    | .completion text => some text
    | .exn _ => none
  | _, _, _, _ => none

/-- `generate_report` (app.py lines 164-212): reads `currency_pair`,
`data_analysis`, `exchange_rate_data`, `news_data` and `trend_data`; the model
call's exception propagates uncaught, else the completion is the delta
`{"final_report": ...}`. -/
def generate_report (state : ForexAnalysisState) (out : LLMOutcome) :
    Option String :=
  match state.currency_pair, state.data_analysis, state.exchange_rate_data,
        state.news_data, state.trend_data with
  | some _, some _, some _, some _, some _ =>
    match out with
    | .completion text => some text
    | .exn _ => none
  | _, _, _, _, _ => none

/-- LangGraph merges the single-key delta of `collect_exchange_rate` into the
state. -/
def step_rate (s : ForexAnalysisState) (o : Oracle) :
    Option ForexAnalysisState :=
  (collect_exchange_rate s o.rateOut).map
    fun d => { s with exchange_rate_data := some d }

/-- LangGraph merges the single-key delta of `collect_news` into the state. -/
def step_news (s : ForexAnalysisState) (o : Oracle) :
    Option ForexAnalysisState :=
  (collect_news s o.news_api_key o.newsOut).map
    fun d => { s with news_data := some d }

/-- LangGraph merges the single-key delta of `collect_trends` into the
state. -/
def step_trends (s : ForexAnalysisState) (o : Oracle) :
    Option ForexAnalysisState :=
  (collect_trends s o.rand).map fun d => { s with trend_data := some d }

/-- LangGraph merges the single-key delta of `analyze_data` into the state. -/
def step_analyze (s : ForexAnalysisState) (o : Oracle) :
    Option ForexAnalysisState :=
  (analyze_data s o.analysisOut).map fun d => { s with data_analysis := some d }

/-- LangGraph merges the single-key delta of `generate_report` into the
state. -/
def step_report (s : ForexAnalysisState) (o : Oracle) :
    Option ForexAnalysisState :=
  (generate_report s o.reportOut).map fun d => { s with final_report := some d }

/-- The compiled linear graph of `ForexAnalysisGraph.__init__` (app.py lines
218-241): `collect_exchange_rate → collect_news → collect_trends →
analyze_data → generate_report → END`, each node's delta merged into the
state; an exception in a node aborts the run (`none`). -/
def runPipeline (s : ForexAnalysisState) (o : Oracle) :
    Option ForexAnalysisState :=
  (step_rate s o).bind fun s1 =>
  (step_news s1 o).bind fun s2 =>
  (step_trends s2 o).bind fun s3 =>
  (step_analyze s3 o).bind fun s4 =>
  step_report s4 o

/-- `initial_state = {"currency_pair": currency_pair}` (app.py line 249). -/
def initialState (currency_pair : String) : ForexAnalysisState :=
  { currency_pair := some currency_pair, exchange_rate_data := none,
    news_data := none, trend_data := none, data_analysis := none,
    final_report := none }

/-- `ForexAnalysisGraph.analyze_currency_pair` (app.py lines 243-255): a pair
without a `'/'` is rejected with the fixed error string before the graph is
invoked; otherwise the graph runs from the fresh initial state and
`result["final_report"]` is returned (`none` = the run raised, either in a
node or at that final lookup). -/
def analyze_currency_pair (currency_pair : String) (o : Oracle) :
    Option String :=
  if pycontains currency_pair '/' = false then
    some "Error: Currency pair should be in format 'XXX/YYY' (e.g., 'USD/INR')"
  else
    match runPipeline (initialState currency_pair) o with
    | none => none
    | some result => result.final_report

/-! ## Helper lemmas -/

/-- Splitting a character list without an occurrence of `c` yields the one
whole component. -/
lemma splitChar_no_occurrence (c : Char) (l : List Char)
    (h : l.any (fun a => a = c) = false) : splitChar c l = [l] := by
  induction l with
  | nil => rfl
  | cons a rest ih =>
    simp only [List.any_cons, Bool.or_eq_false_iff] at h
    unfold splitChar
    rw [if_neg (by simpa using h.1), ih h.2]

/-- A string without a `'/'` splits into the single component `[s]`, so the
two-component unpacking raises. -/
lemma split2_eq_none_of_not_contains (s : String)
    (h : pycontains s '/' = false) : split2 s = none := by
  unfold split2 pysplit
  rw [splitChar_no_occurrence _ _ h]
  rfl

/-- If the two-component unpacking succeeds, the string contains a `'/'`. -/
lemma pycontains_of_split2 (s : String) (p : String × String)
    (h : split2 s = some p) : pycontains s '/' = true := by
  by_contra hc
  rw [split2_eq_none_of_not_contains s (by simpa using hc)] at h
  exact Option.noConfusion h

/-- `random.choice` on a non-empty list succeeds. -/
lemma pychoice_isSome {α : Type} (l : List α) (i : ℕ) (h : l ≠ []) :
    ∃ a, pychoice l i = some a := by
  have hlen : 0 < l.length := List.length_pos.mpr h
  have hlt : i % l.length < l.length := Nat.mod_lt _ hlen
  exact ⟨l.get ⟨_, hlt⟩, List.get?_eq_get hlt⟩

/-- `random.choice` picks an element of its list. -/
lemma pychoice_mem {α : Type} {l : List α} {i : ℕ} {a : α}
    (h : pychoice l i = some a) : a ∈ l :=
  List.get?_mem h

/-- Round-half-to-even never rounds below the floor. -/
lemma floor_le_roundHalfEven (x : ℚ) : ⌊x⌋ ≤ roundHalfEven x := by
  unfold roundHalfEven
  split_ifs <;> omega

/-- Round-half-to-even never rounds above the floor plus one. -/
lemma roundHalfEven_le_floor_add_one (x : ℚ) : roundHalfEven x ≤ ⌊x⌋ + 1 := by
  unfold roundHalfEven
  split_ifs <;> omega

/-- Round-half-to-even respects an integer lower bound. -/
lemma le_roundHalfEven {z : ℤ} {x : ℚ} (h : (z : ℚ) ≤ x) :
    z ≤ roundHalfEven x :=
  le_trans (Int.le_floor.mpr h) (floor_le_roundHalfEven x)

/-- Round-half-to-even respects a strict integer upper bound. -/
lemma roundHalfEven_le {z : ℤ} {x : ℚ} (h : x < (z : ℚ)) :
    roundHalfEven x ≤ z := by
  have hf : ⌊x⌋ < z := Int.floor_lt.mpr h
  have := roundHalfEven_le_floor_add_one x
  omega

/-- Round-half-to-even fixes integers. -/
lemma roundHalfEven_intCast (z : ℤ) : roundHalfEven (z : ℚ) = z := by
  unfold roundHalfEven
  rw [Int.floor_intCast]
  rw [if_pos (by norm_num)]

/-- On a pair whose split has exactly two components, the trend sampler
returns a record: the two `random.choice` calls draw from concrete non-empty
lists and every other expression of the returned dict is total. -/
lemma analyze_forex_trends_some (pair b t : String) (g : Randomness)
    (hsplit : split2 pair = some (b, t)) :
    ∃ rec, analyze_forex_trends pair g = some rec := by
  unfold analyze_forex_trends
  rw [hsplit]
  obtain ⟨tr, htr⟩ :=
    pychoice_isSome (["upward", "downward", "sideways"] : List String)
      g.trendIdx (by decide)
  obtain ⟨se, hse⟩ :=
    pychoice_isSome (["bullish", "bearish", "neutral"] : List String)
      g.sentimentIdx (by decide)
  simp only [htr, hse]
  exact ⟨_, rfl⟩

/-- On a pair whose split has exactly two components, the news fetcher
returns a value: everything past the unpacking is inside `try`/`except`. -/
lemma get_forex_news_some (pair b t k : String) (out : HttpOutcome NewsApiBody)
    (hsplit : split2 pair = some (b, t)) :
    ∃ res, get_forex_news pair k out = some res := by
  unfold get_forex_news
  rw [hsplit]
  exact ⟨_, rfl⟩

/-- The volatility draw: `round(random.uniform(0.1, 5.0), 2)` stays in
`[0.1, 5.0]` because the interval's endpoints are themselves multiples of
`1/100`. -/
lemma pyround2_uniform_mem (u : ℚ) (h0 : 0 ≤ u) (h1 : u < 1) :
    (1/10 : ℚ) ≤ pyround2 (pyuniform (0.1 : ℚ) (5.0 : ℚ) u) ∧
    pyround2 (pyuniform (0.1 : ℚ) (5.0 : ℚ) u) ≤ 5 := by
  have hql : (10 : ℚ) ≤ pyuniform (0.1 : ℚ) (5.0 : ℚ) u * 100 := by
    unfold pyuniform
    norm_num
    nlinarith
  have hqu : pyuniform (0.1 : ℚ) (5.0 : ℚ) u * 100 < (500 : ℚ) := by
    unfold pyuniform
    norm_num
    nlinarith
  have hl : (10 : ℤ) ≤ roundHalfEven (pyuniform (0.1 : ℚ) (5.0 : ℚ) u * 100) :=
    le_roundHalfEven (by exact_mod_cast hql)
  have hu : roundHalfEven (pyuniform (0.1 : ℚ) (5.0 : ℚ) u * 100) ≤ (500 : ℤ) :=
    roundHalfEven_le (by exact_mod_cast hqu)
  have hl' : ((10 : ℤ) : ℚ) ≤
      (roundHalfEven (pyuniform (0.1 : ℚ) (5.0 : ℚ) u * 100) : ℚ) := by
    exact_mod_cast hl
  have hu' : ((roundHalfEven (pyuniform (0.1 : ℚ) (5.0 : ℚ) u * 100) : ℚ)) ≤
      ((500 : ℤ) : ℚ) := by
    exact_mod_cast hu
  unfold pyround2
  constructor
  · push_cast at hl'
    linarith
  · push_cast at hu'
    linarith

/-- The concrete random draws `(0, 0, 0, 0, 0)`. -/
def rand0 : Randomness :=
  { trendIdx := 0, strengthIdx := 0, sentimentIdx := 0, u := 0, volumeIdx := 0 }

/-- The record the trend sampler produces on `"USD/INR"` with draws
`rand0`. -/
def trendRecord0 : TrendRecord :=
  { base_currency := "USD", target_currency := "INR",
    current_trend := "upward", trend_strength := 3,
    public_sentiment := "bullish", volatility := 1/10,
    trading_volume := "50M" }

/-- Concrete evaluation of the trend sampler at `"USD/INR"` and draws
`rand0`. -/
lemma analyze_forex_trends_concrete :
    analyze_forex_trends "USD/INR" rand0 = some trendRecord0 := by
  have h1 : pychoice (["upward", "downward", "sideways"] : List String) 0 =
      some "upward" := by decide
  have h2 : pychoice (["bullish", "bearish", "neutral"] : List String) 0 =
      some "bullish" := by decide
  have h3 : pyrandint 3 8 0 = 3 := by decide
  have h4 : toString (pyrandint 50 500 0) ++ "M" = "50M" := by decide
  have huni : pyuniform (0.1 : ℚ) (5.0 : ℚ) 0 = ((1 : ℤ) : ℚ) / 10 := by
    unfold pyuniform
    norm_num
  have hvol : pyround2 (pyuniform (0.1 : ℚ) (5.0 : ℚ) 0) = 1/10 := by
    rw [huni]
    unfold pyround2
    rw [show (((1 : ℤ) : ℚ) / 10) * 100 = ((10 : ℤ) : ℚ) from by norm_num]
    rw [roundHalfEven_intCast]
    norm_num
  unfold analyze_forex_trends
  rw [show split2 "USD/INR" = some ("USD", "INR") from by decide]
  simp only [rand0, h1, h2, h3, h4, hvol, trendRecord0]

/-- A fixed oracle used to instantiate theorems at concrete inputs. -/
def oracle0 : Oracle :=
  { rateOut := .response 200
      { conversion_rate := some (83.5 : ℚ),
        time_last_update_utc := some "Sat, 01 Mar 2025 00:00:01 +0000",
        time_next_update_utc := some "Sun, 02 Mar 2025 00:00:01 +0000" },
    newsOut := .response 200 { articles := some [] },
    news_api_key := "key",
    rand := { trendIdx := 0, strengthIdx := 0, sentimentIdx := 0, u := 0,
              volumeIdx := 0 },
    analysisOut := .completion "analysis text",
    reportOut := .completion "report text" }

/-- Two mock articles, enough to instantiate the news theorems. -/
def mockArticles2 : List Article :=
  [{ title := some "a1" }, { title := some "a2" }]

/-- Five mock articles, as in the spec's five-article mock. -/
def mockArticles5 : List Article :=
  [{ title := some "a1" }, { title := some "a2" }, { title := some "a3" },
   { title := some "a4" }, { title := some "a5" }]

/-! ## Claims -/

/-- C2: for every input string without the character `'/'`, and every state
of the external world (so independently of any network call or graph
execution), `analyze_currency_pair` returns the fixed error string. -/
theorem analyze_currency_pair_rejects_no_slash (s : String) (o : Oracle)
    (h : pycontains s '/' = false) :
    analyze_currency_pair s o =
      some "Error: Currency pair should be in format 'XXX/YYY' (e.g., 'USD/INR')" := by
  unfold analyze_currency_pair
  rw [if_pos h]

/-- C2 witness: the slash-free input `"USDINR"` at a concrete oracle. -/
theorem analyze_currency_pair_rejects_no_slash_witness :
    analyze_currency_pair "USDINR" oracle0 =
      some "Error: Currency pair should be in format 'XXX/YYY' (e.g., 'USD/INR')" :=
  analyze_currency_pair_rejects_no_slash "USDINR" oracle0 (by decide)

/-- C3: for every pair of currency codes, a 200 response whose body carries
`conversion_rate = 83.5` and the two update timestamps yields the success
record with `rate = 83.5`, `status = "success"` and the timestamps copied
from the body. -/
theorem get_exchange_rate_success_record (base target : String)
    (body : RateApiBody) (lu nu : String)
    (hr : body.conversion_rate = some (83.5 : ℚ))
    (hl : body.time_last_update_utc = some lu)
    (hn : body.time_next_update_utc = some nu) :
    get_exchange_rate base target (.response 200 body) =
      { base_currency := some base, target_currency := some target,
        rate := some (83.5 : ℚ), last_updated := some lu,
        next_update := some nu, status := "success", message := none } := by
  simp [get_exchange_rate, rateTry, hr, hl, hn]

/-- C3 witness: a concrete 200 body with `conversion_rate = 83.5`. -/
theorem get_exchange_rate_success_record_witness :
    get_exchange_rate "USD" "INR"
      (.response 200 { conversion_rate := some (83.5 : ℚ),
                       time_last_update_utc := some "Sat, 01 Mar 2025 00:00:01 +0000",
                       time_next_update_utc := some "Sun, 02 Mar 2025 00:00:01 +0000" }) =
      { base_currency := some "USD", target_currency := some "INR",
        rate := some (83.5 : ℚ),
        last_updated := some "Sat, 01 Mar 2025 00:00:01 +0000",
        next_update := some "Sun, 02 Mar 2025 00:00:01 +0000",
        status := "success", message := none } :=
  get_exchange_rate_success_record "USD" "INR" _ _ _ rfl rfl rfl

/-- C4: for every pair of currency codes and every 404 body, the result has
`status = "error"` and its message contains the substring `"404"`. -/
theorem get_exchange_rate_404_message (base target : String)
    (body : RateApiBody) :
    (get_exchange_rate base target (.response 404 body)).status = "error" ∧
    ∃ pre post, (get_exchange_rate base target (.response 404 body)).message =
      some (pre ++ "404" ++ post) := by
  refine ⟨rfl, "API returned status code ", "", ?_⟩
  rfl

/-- C10: `"A/B/C"` passes the entry check (it contains `'/'`) but has three
slash-separated components, so the first stage's two-value unpacking of
`currency_pair.split('/')` raises and the run aborts with an exception:
`analyze_currency_pair` returns neither a report nor the rejection string. -/
theorem multislash_pair_aborts_first_stage :
    pycontains "A/B/C" '/' = true ∧
    split2 "A/B/C" = none ∧
    collect_exchange_rate (initialState "A/B/C") oracle0.rateOut = none ∧
    analyze_currency_pair "A/B/C" oracle0 = none := by
  refine ⟨by decide, by decide, ?_, ?_⟩ <;> decide

/-- C1 counterexample: a mocked 200 news response containing five articles
makes `get_forex_news` return five entries, not three. -/
theorem get_forex_news_five_articles_counterexample :
    get_forex_news "USD/INR" "key" (.response 200 { articles := some mockArticles5 }) =
      some (.list (mockArticles5.map newsEntryOfArticle)) ∧
    (mockArticles5.map newsEntryOfArticle).length = 5 ∧ ¬ (5 = 3) := by
  refine ⟨by decide, by decide, by decide⟩

/-- C1 amended: on a 200 response `get_forex_news` returns one entry per
article of the response body, in the body's order, with no local re-sorting
and no local truncation; the cap of 3 exists only as the `pageSize` request
parameter sent upstream. -/
theorem get_forex_news_returns_all_articles (pair b t k : String)
    (body : NewsApiBody) (articles : List Article)
    (hsplit : split2 pair = some (b, t))
    (harticles : body.articles = some articles) :
    get_forex_news pair k (.response 200 body) =
      some (.list (articles.map newsEntryOfArticle)) ∧
    (articles.map newsEntryOfArticle).length = articles.length ∧
    (newsParams b t k).pageSize = 3 := by
  refine ⟨?_, by simp, rfl⟩
  unfold get_forex_news
  rw [hsplit]
  simp [harticles]

/-- C1 amended witness: a concrete two-article 200 body yields both entries
in order. -/
theorem get_forex_news_returns_all_articles_witness :
    get_forex_news "USD/INR" "key" (.response 200 { articles := some mockArticles2 }) =
      some (.list (mockArticles2.map newsEntryOfArticle)) ∧
    (mockArticles2.map newsEntryOfArticle).length = mockArticles2.length ∧
    (newsParams "USD" "INR" "key").pageSize = 3 :=
  get_forex_news_returns_all_articles "USD/INR" "USD" "INR" "key" _ _
    (by decide) rfl

/-- C5: whatever the pair and the draws (the `random.random()` draw lying in
`[0, 1)` as the library guarantees), any record the trend sampler returns has
`trend_strength ∈ [3, 8]`, `volatility ∈ [0.1, 5.0]` and equal to an integer
number of hundredths (2 decimal places), `public_sentiment` among
bullish/bearish/neutral and `current_trend` among
upward/downward/sideways. -/
theorem analyze_forex_trends_field_bounds (pair : String) (g : Randomness)
    (rec : TrendRecord) (h0 : 0 ≤ g.u) (h1 : g.u < 1)
    (heq : analyze_forex_trends pair g = some rec) :
    3 ≤ rec.trend_strength ∧ rec.trend_strength ≤ 8 ∧
    (1/10 : ℚ) ≤ rec.volatility ∧ rec.volatility ≤ 5 ∧
    (∃ z : ℤ, rec.volatility = (z : ℚ) / 100) ∧
    rec.public_sentiment ∈ (["bullish", "bearish", "neutral"] : List String) ∧
    rec.current_trend ∈ (["upward", "downward", "sideways"] : List String) := by
  unfold analyze_forex_trends at heq
  cases hsplit : split2 pair with
  | none =>
    rw [hsplit] at heq
    exact absurd heq (by simp)
  | some p =>
    obtain ⟨b, t⟩ := p
    rw [hsplit] at heq
    cases htr : pychoice (["upward", "downward", "sideways"] : List String)
        g.trendIdx with
    | none => simp [htr] at heq
    | some tr =>
      cases hse : pychoice (["bullish", "bearish", "neutral"] : List String)
          g.sentimentIdx with
      | none => simp [htr, hse] at heq
      | some se =>
        simp only [htr, hse, Option.some.injEq] at heq
        subst heq
        have hmod : g.strengthIdx % 6 < 6 := Nat.mod_lt _ (by norm_num)
        have hvol := pyround2_uniform_mem g.u h0 h1
        refine ⟨?_, ?_, hvol.1, hvol.2, ⟨_, rfl⟩, pychoice_mem hse,
          pychoice_mem htr⟩
        · show 3 ≤ pyrandint 3 8 g.strengthIdx
          unfold pyrandint
          omega
        · show pyrandint 3 8 g.strengthIdx ≤ 8
          unfold pyrandint
          omega

/-- C5 witness: the draws `rand0` (with `random.random() = 0`) on
`"USD/INR"` give the record `trendRecord0`, whose fields satisfy every
bound. -/
theorem analyze_forex_trends_field_bounds_witness :
    3 ≤ trendRecord0.trend_strength ∧ trendRecord0.trend_strength ≤ 8 ∧
    (1/10 : ℚ) ≤ trendRecord0.volatility ∧ trendRecord0.volatility ≤ 5 ∧
    (∃ z : ℤ, trendRecord0.volatility = (z : ℚ) / 100) ∧
    trendRecord0.public_sentiment ∈
      (["bullish", "bearish", "neutral"] : List String) ∧
    trendRecord0.current_trend ∈
      (["upward", "downward", "sideways"] : List String) :=
  analyze_forex_trends_field_bounds "USD/INR" rand0 trendRecord0
    (by norm_num [rand0]) (by norm_num [rand0]) analyze_forex_trends_concrete

/-- C6 counterexample: `"A/B/C"` contains `'/'`, so the pipeline entry check
accepts it, yet the trend sampler raises on it (its two-value unpacking of
the split fails), for instance at the draws `rand0`. -/
theorem analyze_forex_trends_multislash_raises :
    pycontains "A/B/C" '/' = true ∧
    analyze_forex_trends "A/B/C" rand0 = none := by
  constructor
  · decide
  · unfold analyze_forex_trends
    rw [show split2 "A/B/C" = none from by decide]

/-- C6 amended: the trend sampler never fails on a currency-pair string whose
`split('/')` has exactly two components (equivalently, with exactly one
`'/'`); on a merely accepted string with several slashes it raises. -/
theorem analyze_forex_trends_total_on_valid_split (pair b t : String)
    (g : Randomness) (hsplit : split2 pair = some (b, t)) :
    ∃ rec, analyze_forex_trends pair g = some rec :=
  analyze_forex_trends_some pair b t g hsplit

/-- C6 amended witness: on `"USD/INR"` with draws `rand0` the sampler
returns a record. -/
theorem analyze_forex_trends_total_on_valid_split_witness :
    ∃ rec, analyze_forex_trends "USD/INR" rand0 = some rec :=
  analyze_forex_trends_total_on_valid_split "USD/INR" "USD" "INR" rand0
    (by decide)

/-- Full evaluation of the five-stage graph from the fresh initial state:
the three collectors always succeed on a two-component pair (their results
given by `hnw`/`htd`), then the run's fate is decided by the two model
calls: the first raised exception aborts it, two completions finish it with
every state field populated. -/
lemma runPipeline_eval (pair b t : String) (o : Oracle) (nw : NewsResult)
    (td : TrendRecord) (hsplit : split2 pair = some (b, t))
    (hnw : get_forex_news pair o.news_api_key o.newsOut = some nw)
    (htd : analyze_forex_trends pair o.rand = some td) :
    runPipeline (initialState pair) o =
      match o.analysisOut with
      | .exn _ => none
      | .completion a =>
        match o.reportOut with
        | .exn _ => none
        | .completion r =>
          some { currency_pair := some pair,
                 exchange_rate_data := some (get_exchange_rate b t o.rateOut),
                 news_data := some nw, trend_data := some td,
                 data_analysis := some a, final_report := some r } := by
  cases ha : o.analysisOut with
  | exn e =>
    simp [runPipeline, step_rate, step_news, step_trends, step_analyze,
          collect_exchange_rate, collect_news, collect_trends, analyze_data,
          initialState, hsplit, hnw, htd, ha]
  | completion a =>
    cases hr : o.reportOut with
    | exn e =>
      simp [runPipeline, step_rate, step_news, step_trends, step_analyze,
            step_report, collect_exchange_rate, collect_news, collect_trends,
            analyze_data, generate_report, initialState, hsplit, hnw, htd,
            ha, hr]
    | completion r =>
      simp [runPipeline, step_rate, step_news, step_trends, step_analyze,
            step_report, collect_exchange_rate, collect_news, collect_trends,
            analyze_data, generate_report, initialState, hsplit, hnw, htd,
            ha, hr]

/-- C7: a failed external call (any non-200 status, or a raised transport
exception) never escapes the two fetchers as an exception: the rate fetcher
returns a record with `status = "error"` and a message, and the news fetcher
(past its pair unpacking) always returns a value, which on a failed call is
the `status = "error"` record with a message. -/
theorem fetch_failures_are_data (b t : String) (out1 : HttpOutcome RateApiBody)
    (pair k : String) (p : String × String) (out2 : HttpOutcome NewsApiBody)
    (hsplit : split2 pair = some p) :
    (out1.isFailure = true →
      (get_exchange_rate b t out1).status = "error" ∧
      ((get_exchange_rate b t out1).message).isSome = true) ∧
    (∃ res, get_forex_news pair k out2 = some res) ∧
    (out2.isFailure = true →
      ∃ msg, get_forex_news pair k out2 =
        some (.record { status := "error", message := msg })) := by
  obtain ⟨pb, pt⟩ := p
  refine ⟨?_, ?_, ?_⟩
  · intro hfail
    cases out1 with
    | exn e => exact ⟨rfl, rfl⟩
    | response code body =>
      have hcode : ¬ (code = 200) := by
        simpa [HttpOutcome.isFailure] using hfail
      simp [get_exchange_rate, rateTry, hcode]
  · unfold get_forex_news
    rw [hsplit]
    exact ⟨_, rfl⟩
  · intro hfail
    unfold get_forex_news
    rw [hsplit]
    cases out2 with
    | exn e => exact ⟨e, rfl⟩
    | response code body =>
      have hcode : ¬ (code = 200) := by
        simpa [HttpOutcome.isFailure] using hfail
      refine ⟨"API returned status code " ++ toString code, ?_⟩
      simp [hcode]

/-- C7 witness: a raised rate call and a 503 news response, at a concrete
pair. -/
theorem fetch_failures_are_data_witness :
    ((HttpOutcome.exn "connection reset" : HttpOutcome RateApiBody).isFailure = true →
      (get_exchange_rate "USD" "INR" (.exn "connection reset")).status = "error" ∧
      ((get_exchange_rate "USD" "INR" (.exn "connection reset")).message).isSome = true) ∧
    (∃ res, get_forex_news "USD/INR" "key"
        (.response 503 { articles := none }) = some res) ∧
    ((HttpOutcome.response 503 { articles := none } : HttpOutcome NewsApiBody).isFailure = true →
      ∃ msg, get_forex_news "USD/INR" "key" (.response 503 { articles := none }) =
        some (.record { status := "error", message := msg })) :=
  fetch_failures_are_data "USD" "INR" (.exn "connection reset") "USD/INR" "key"
    ("USD", "INR") (.response 503 { articles := none }) (by decide)

/-- C8: on any run that reaches the graph (the pair splits in two), a raised
model call in `analyze_data` or `generate_report` is caught nowhere: the run
aborts and `analyze_currency_pair` produces no report value at all. -/
theorem model_call_exception_aborts (pair b t : String) (o : Oracle)
    (hsplit : split2 pair = some (b, t))
    (hexn : o.analysisOut.isExn = true ∨ o.reportOut.isExn = true) :
    analyze_currency_pair pair o = none := by
  have hcontains := pycontains_of_split2 pair (b, t) hsplit
  obtain ⟨nw, hnw⟩ := get_forex_news_some pair b t o.news_api_key o.newsOut hsplit
  obtain ⟨td, htd⟩ := analyze_forex_trends_some pair b t o.rand hsplit
  have hrun := runPipeline_eval pair b t o nw td hsplit hnw htd
  unfold analyze_currency_pair
  rw [if_neg (by simp [hcontains])]
  cases ha : o.analysisOut with
  | exn e =>
    rw [ha] at hrun
    rw [hrun]
  | completion a =>
    cases hr : o.reportOut with
    | exn e =>
      rw [ha, hr] at hrun
      rw [hrun]
    | completion r =>
      rw [ha] at hexn
      rw [hr] at hexn
      simp [LLMOutcome.isExn] at hexn

/-- C8 witness: a raised analysis call at a concrete pair and oracle. -/
theorem model_call_exception_aborts_witness :
    analyze_currency_pair "USD/INR"
      { oracle0 with analysisOut := .exn "rate limited" } = none :=
  model_call_exception_aborts "USD/INR" "USD" "INR"
    { oracle0 with analysisOut := .exn "rate limited" } (by decide)
    (Or.inl rfl)

/-- C9: each graph node returns a single-key delta, so each step populates
exactly its own field and leaves every other field unchanged; each node
reads only fields produced before it (its result is unchanged between any
two states agreeing on those earlier fields); and on a two-component pair
with distinct codes whose two model calls complete, the run succeeds with
all six state fields populated. -/
theorem pipeline_state_discipline :
    (∀ s o s', step_rate s o = some s' →
      (s'.currency_pair = s.currency_pair ∧ s'.news_data = s.news_data ∧
       s'.trend_data = s.trend_data ∧ s'.data_analysis = s.data_analysis ∧
       s'.final_report = s.final_report ∧
       s'.exchange_rate_data.isSome = true)) ∧
    (∀ s o s', step_news s o = some s' →
      (s'.currency_pair = s.currency_pair ∧
       s'.exchange_rate_data = s.exchange_rate_data ∧
       s'.trend_data = s.trend_data ∧ s'.data_analysis = s.data_analysis ∧
       s'.final_report = s.final_report ∧ s'.news_data.isSome = true)) ∧
    (∀ s o s', step_trends s o = some s' →
      (s'.currency_pair = s.currency_pair ∧
       s'.exchange_rate_data = s.exchange_rate_data ∧
       s'.news_data = s.news_data ∧ s'.data_analysis = s.data_analysis ∧
       s'.final_report = s.final_report ∧ s'.trend_data.isSome = true)) ∧
    (∀ s o s', step_analyze s o = some s' →
      (s'.currency_pair = s.currency_pair ∧
       s'.exchange_rate_data = s.exchange_rate_data ∧
       s'.news_data = s.news_data ∧ s'.trend_data = s.trend_data ∧
       s'.final_report = s.final_report ∧ s'.data_analysis.isSome = true)) ∧
    (∀ s o s', step_report s o = some s' →
      (s'.currency_pair = s.currency_pair ∧
       s'.exchange_rate_data = s.exchange_rate_data ∧
       s'.news_data = s.news_data ∧ s'.trend_data = s.trend_data ∧
       s'.data_analysis = s.data_analysis ∧ s'.final_report.isSome = true)) ∧
    (∀ s1 s2 out, s1.currency_pair = s2.currency_pair →
      collect_exchange_rate s1 out = collect_exchange_rate s2 out) ∧
    (∀ s1 s2 k out, s1.currency_pair = s2.currency_pair →
      collect_news s1 k out = collect_news s2 k out) ∧
    (∀ s1 s2 g, s1.currency_pair = s2.currency_pair →
      collect_trends s1 g = collect_trends s2 g) ∧
    (∀ s1 s2 out, s1.currency_pair = s2.currency_pair →
      s1.exchange_rate_data = s2.exchange_rate_data →
      s1.news_data = s2.news_data → s1.trend_data = s2.trend_data →
      analyze_data s1 out = analyze_data s2 out) ∧
    (∀ s1 s2 out, s1.currency_pair = s2.currency_pair →
      s1.exchange_rate_data = s2.exchange_rate_data →
      s1.news_data = s2.news_data → s1.trend_data = s2.trend_data →
      s1.data_analysis = s2.data_analysis →
      generate_report s1 out = generate_report s2 out) ∧
    (∀ pair b t a r o, split2 pair = some (b, t) → b ≠ t →
      o.analysisOut = .completion a → o.reportOut = .completion r →
      ∃ fin, runPipeline (initialState pair) o = some fin ∧
        fin.currency_pair.isSome = true ∧
        fin.exchange_rate_data.isSome = true ∧
        fin.news_data.isSome = true ∧ fin.trend_data.isSome = true ∧
        fin.data_analysis.isSome = true ∧ fin.final_report.isSome = true) := by
  refine ⟨?_, ?_, ?_, ?_, ?_, ?_, ?_, ?_, ?_, ?_, ?_⟩
  · intro s o s' h
    unfold step_rate at h
    cases hc : collect_exchange_rate s o.rateOut with
    | none => rw [hc] at h; exact absurd h (by simp)
    | some d =>
      rw [hc] at h
      obtain rfl : { s with exchange_rate_data := some d } = s' := by
        simpa using h
      exact ⟨rfl, rfl, rfl, rfl, rfl, rfl⟩
  · intro s o s' h
    unfold step_news at h
    cases hc : collect_news s o.news_api_key o.newsOut with
    | none => rw [hc] at h; exact absurd h (by simp)
    | some d =>
      rw [hc] at h
      obtain rfl : { s with news_data := some d } = s' := by simpa using h
      exact ⟨rfl, rfl, rfl, rfl, rfl, rfl⟩
  · intro s o s' h
    unfold step_trends at h
    cases hc : collect_trends s o.rand with
    | none => rw [hc] at h; exact absurd h (by simp)
    | some d =>
      rw [hc] at h
      obtain rfl : { s with trend_data := some d } = s' := by simpa using h
      exact ⟨rfl, rfl, rfl, rfl, rfl, rfl⟩
  · intro s o s' h
    unfold step_analyze at h
    cases hc : analyze_data s o.analysisOut with
    | none => rw [hc] at h; exact absurd h (by simp)
    | some d =>
      rw [hc] at h
      obtain rfl : { s with data_analysis := some d } = s' := by simpa using h
      exact ⟨rfl, rfl, rfl, rfl, rfl, rfl⟩
  · intro s o s' h
    unfold step_report at h
    cases hc : generate_report s o.reportOut with
    | none => rw [hc] at h; exact absurd h (by simp)
    | some d =>
      rw [hc] at h
      obtain rfl : { s with final_report := some d } = s' := by simpa using h
      exact ⟨rfl, rfl, rfl, rfl, rfl, rfl⟩
  · intro s1 s2 out h
    unfold collect_exchange_rate
    rw [h]
  · intro s1 s2 k out h
    unfold collect_news
    rw [h]
  · intro s1 s2 g h
    unfold collect_trends
    rw [h]
  · intro s1 s2 out h1 h2 h3 h4
    unfold analyze_data
    rw [h1, h2, h3, h4]
  · intro s1 s2 out h1 h2 h3 h4 h5
    unfold generate_report
    rw [h1, h2, h3, h4, h5]
  · intro pair b t a r o hsplit _ ha hr
    obtain ⟨nw, hnw⟩ := get_forex_news_some pair b t o.news_api_key o.newsOut hsplit
    obtain ⟨td, htd⟩ := analyze_forex_trends_some pair b t o.rand hsplit
    have hrun := runPipeline_eval pair b t o nw td hsplit hnw htd
    rw [ha, hr] at hrun
    exact ⟨_, hrun, rfl, rfl, rfl, rfl, rfl, rfl⟩

end MoneyScope
